import Mathlib

/-!
Verification of the task mutation and batch-reconciliation core of the
ticktick-mcp repository (src/ticktick_mcp/tools/task_tools.py), as a shallow
embedding in Lean 4.

The embedding models:
  * the `TaskObject` pydantic model (optional fields, the non-null default of
    `priority`, the `update` merge method, and the `serialize_datetime` field
    serializer with its timezone side effect);
  * the remote client as a lookup function `GetById` from identifiers to
    optionally found objects, plus explicit traces of the calls issued;
  * the tool functions `ticktick_delete_tasks`, `ticktick_make_subtask`,
    `ticktick_update_task` (its merge step) and `ticktick_create_task`
    (its priority validation, modelled from the spec because the builder
    lives in the external client library).

Python datetimes are modelled as integers (the embedding never inspects
them), dictionaries returned by the remote lookup as the structure `Obj`,
and response envelopes as inductive types whose constructors carry exactly
the fields the source puts into the corresponding JSON dictionaries.
-/

namespace TickTickMCP

/-- A character-list model of Python string containment used to state that a
warning string "mentions" an identifier: `beginsWith pat l` holds when `pat`
is an initial segment of `l`. -/
def beginsWith : List Char → List Char → Bool
  | [], _ => true
  | _ :: _, [] => false
  | a :: pat, b :: l => a = b && beginsWith pat l

/-- `occursIn pat l` holds when `pat` occurs contiguously somewhere in `l`. -/
def occursIn (pat : List Char) : List Char → Bool
  | [] => pat.isEmpty
  | b :: l => beginsWith pat (b :: l) || occursIn pat l

/-- A string `s` mentions `sub` when the characters of `sub` occur
contiguously in `s`. -/
def mentions (s sub : String) : Prop := occursIn sub.data s.data = true

instance (s sub : String) : Decidable (mentions s sub) := by
  unfold mentions; infer_instance

/-- The apostrophe character, used by the Python `str` rendering of a list of
strings. -/
def quoteChar : Char := Char.ofNat 39

/-- The space character. -/
def spaceChar : Char := Char.ofNat 32

/-- Python `str` rendering of one string inside a list: the string wrapped in
single quotes. -/
def pyQuote (s : String) : String :=
  String.singleton quoteChar ++ s ++ String.singleton quoteChar

/-- Comma-space separated join, as Python `str` renders list elements. -/
def joinSep : List String → String
  | [] => ""
  | [x] => x
  | x :: xs => x ++ ", " ++ joinSep xs

/-- Python `str` rendering of a list of strings, as interpolated by the
f-strings building the warning message in `ticktick_delete_tasks`. -/
def pyStrList (xs : List String) : String :=
  "[" ++ joinSep (xs.map pyQuote) ++ "]"

/-- Python `str.strip` on a character list: drop whitespace from both ends. -/
def pyStripL (l : List Char) : List Char :=
  ((l.dropWhile Char.isWhitespace).reverse.dropWhile Char.isWhitespace).reverse

/-- Python `str.strip`. -/
def pyStrip (s : String) : String := ⟨pyStripL s.data⟩

/-- A subtask item of a TickTick task (`SubtaskItem` in the source); datetimes
are opaque integers. -/
structure SubtaskItem where
  title : String
  startDate : Option Int := none
  isAllDay : Option Bool := none
  sortOrder : Option Int := none
  timeZone : Option String := none
  status : Option Int := none
  completedTime : Option Int := none
deriving DecidableEq

/-- The `TaskObject` pydantic model: every field optional, defaulting to
`none`, except `priority` whose declared default is the integer `0`
(`priority: Optional[int] = 0` in the source). Datetimes are opaque
integers. -/
structure TaskObject where
  title : Option String := none
  content : Option String := none
  desc : Option String := none
  isAllDay : Option Bool := none
  startDate : Option Int := none
  dueDate : Option Int := none
  timeZone : Option String := none
  reminders : Option (List String) := none
  repeatFlag : Option String := none
  priority : Option Int := some 0
  sortOrder : Option Int := none
  items : Option (List SubtaskItem) := none
  id : Option String := none
  projectId : Option String := none
  status : Option Int := none
  createdTime : Option Int := none
  modifiedTime : Option Int := none
  completedTime : Option Int := none
  tags : Option (List String) := none
  etag : Option String := none
deriving DecidableEq

/-- A `TaskObject` built with no caller-supplied fields: every field takes
the model default. -/
def emptyTaskObject : TaskObject := {}

/-- `TaskObject.update` from the source: for every field of `self`, if the
corresponding field of `src` is not `None` it overwrites the field of
`self`; otherwise the field keeps its value. -/
def TaskObject.update (self src : TaskObject) : TaskObject where
  title := src.title.or self.title
  content := src.content.or self.content
  desc := src.desc.or self.desc
  isAllDay := src.isAllDay.or self.isAllDay
  startDate := src.startDate.or self.startDate
  dueDate := src.dueDate.or self.dueDate
  timeZone := src.timeZone.or self.timeZone
  reminders := src.reminders.or self.reminders
  repeatFlag := src.repeatFlag.or self.repeatFlag
  priority := src.priority.or self.priority
  sortOrder := src.sortOrder.or self.sortOrder
  items := src.items.or self.items
  id := src.id.or self.id
  projectId := src.projectId.or self.projectId
  status := src.status.or self.status
  createdTime := src.createdTime.or self.createdTime
  modifiedTime := src.modifiedTime.or self.modifiedTime
  completedTime := src.completedTime.or self.completedTime
  tags := src.tags.or self.tags
  etag := src.etag.or self.etag

/-- The merge step of `ticktick_update_task`:
`task_obj.update(task_object.model_dump(exclude_none=True))` on the fetched
dictionary. The dump keeps exactly the fields of the partial record that are
not `None`, and `dict.update` overwrites exactly those keys of the base
dictionary, so on the model fields the merged record takes the partial
field when it is non-null and the base field otherwise. -/
def update_task_merge (base patch : TaskObject) : TaskObject where
  title := patch.title.or base.title
  content := patch.content.or base.content
  desc := patch.desc.or base.desc
  isAllDay := patch.isAllDay.or base.isAllDay
  startDate := patch.startDate.or base.startDate
  dueDate := patch.dueDate.or base.dueDate
  timeZone := patch.timeZone.or base.timeZone
  reminders := patch.reminders.or base.reminders
  repeatFlag := patch.repeatFlag.or base.repeatFlag
  priority := patch.priority.or base.priority
  sortOrder := patch.sortOrder.or base.sortOrder
  items := patch.items.or base.items
  id := patch.id.or base.id
  projectId := patch.projectId.or base.projectId
  status := patch.status.or base.status
  createdTime := patch.createdTime.or base.createdTime
  modifiedTime := patch.modifiedTime.or base.modifiedTime
  completedTime := patch.completedTime.or base.completedTime
  tags := patch.tags.or base.tags
  etag := patch.etag.or base.etag

/-- Names of the fields of `TaskObject`, used to state per-field properties
of the merge. -/
inductive TField
  | title | content | desc | isAllDay | startDate | dueDate | timeZone
  | reminders | repeatFlag | priority | sortOrder | items | id | projectId
  | status | createdTime | modifiedTime | completedTime | tags | etag
deriving DecidableEq

/-- Union of the value types a `TaskObject` field can hold. -/
inductive FVal
  | s (v : String)
  | i (v : Int)
  | b (v : Bool)
  | ls (v : List String)
  | li (v : List SubtaskItem)
deriving DecidableEq

/-- Field projection of a `TaskObject` by field name. -/
def TaskObject.getField (t : TaskObject) : TField → Option FVal
  | .title => t.title.map .s
  | .content => t.content.map .s
  | .desc => t.desc.map .s
  | .isAllDay => t.isAllDay.map .b
  | .startDate => t.startDate.map .i
  | .dueDate => t.dueDate.map .i
  | .timeZone => t.timeZone.map .s
  | .reminders => t.reminders.map .ls
  | .repeatFlag => t.repeatFlag.map .s
  | .priority => t.priority.map .i
  | .sortOrder => t.sortOrder.map .i
  | .items => t.items.map .li
  | .id => t.id.map .s
  | .projectId => t.projectId.map .s
  | .status => t.status.map .i
  | .createdTime => t.createdTime.map .i
  | .modifiedTime => t.modifiedTime.map .i
  | .completedTime => t.completedTime.map .i
  | .tags => t.tags.map .ls
  | .etag => t.etag.map .s

/-- `serialize_datetime` from the source, made explicit in state: given the
external conversion function, the local zone key, the record and the field
value, it returns the wire value together with the possibly updated record
(the source mutates `self.timeZone` when it is unset). -/
def serialize_datetime (conv : Int → String → String) (localKey : String)
    (self : TaskObject) (value : Option Int) : Option String × TaskObject :=
  match value with
  | none => (none, self)
  | some v =>
    match self.timeZone with
    | some tz => (some (conv v tz), self)
    | none => (some (conv v localKey), { self with timeZone := some localKey })

/-- A dictionary returned by the generic `client.get_by_id` lookup: the
fields the tools inspect. Objects that are not tasks (projects, tags, …)
show up with a missing `projectId` or `title`. -/
structure Obj where
  id : String
  projectId : Option String := none
  title : Option String := none
deriving DecidableEq

/-- The remote lookup surface: `client.get_by_id` as a function from
identifiers to optionally found objects. -/
def GetById := String → Option Obj

/-- The task classification used by `ticktick_delete_tasks`:
`obj.get('projectId') and obj.get('title') is not None`, i.e. a truthy
(non-null, non-empty) `projectId` together with a non-null `title`. -/
def isValidTaskObj (o : Obj) : Bool :=
  decide (o.projectId.getD "" ≠ "") && o.title.isSome

/-- The input shape of `ticktick_delete_tasks`: a single id string or a list
of id strings (`Union[str, List[str]]`). -/
inductive DeleteInput
  | single (id : String)
  | many (ids : List String)
deriving DecidableEq

/-- `ids_to_process`: a scalar input is wrapped into a one-element list. -/
def idsToProcess : DeleteInput → List String
  | .single i => [i]
  | .many is => is

/-- The resolution loop of `ticktick_delete_tasks`: walk the ids in input
order, collecting the objects classified as tasks, the ids whose lookup
returned nothing, and the ids whose lookup returned a non-task, each list
in input order with duplicates kept. -/
def resolveIds (g : GetById) : List String → List Obj × List String × List String
  | [] => ([], [], [])
  | tid :: rest =>
    let r := resolveIds g rest
    match g tid with
    | none => (r.1, tid :: r.2.1, r.2.2)
    | some o =>
      if isValidTaskObj o then (o :: r.1, r.2.1, r.2.2)
      else (r.1, r.2.1, tid :: r.2.2)

/-- The warning message accumulated by `ticktick_delete_tasks` before
stripping: one sentence per non-empty failure list, with the Python `str`
rendering of the list interpolated. -/
def warningMessage (missing invalid : List String) : String :=
  (if missing.isEmpty then ""
   else "Could not find objects for IDs: " ++ pyStrList missing ++ ". ")
  ++
  (if invalid.isEmpty then ""
   else "Found objects for IDs but they were not valid tasks: "
        ++ pyStrList invalid ++ ".")

/-- The optional `warnings` field of the success envelope: present (stripped)
exactly when the accumulated message is truthy, i.e. non-empty. -/
def warningsField (missing invalid : List String) : Option String :=
  if warningMessage missing invalid = "" then none
  else some (pyStrip (warningMessage missing invalid))

/-- The success envelope of `ticktick_delete_tasks` (the `api_response` field
is the opaque result of the remote call and is not modelled). -/
structure DeleteSuccess where
  deleted_count : Nat
  tasks_deleted_ids : List String
  warnings : Option String
deriving DecidableEq

/-- The response envelopes `ticktick_delete_tasks` can produce. -/
inductive DeleteResponse
  /-- `{"message": "No task IDs provided.", "status": "error"}` -/
  | errorNoIds
  /-- `{"message": ..., "status": "not_found", "missing_ids": ..., "invalid_ids": ...}` -/
  | notFound (missing_ids invalid_ids : List String)
  /-- `{"status": "success", "deleted_count": ..., "tasks_deleted_ids": ..., ["warnings": ...]}` -/
  | ok (r : DeleteSuccess)
deriving DecidableEq

/-- Whether a delete response envelope carries the missing and invalid id
lists (only the `not_found` envelope does). -/
def DeleteResponse.carriesIdLists : DeleteResponse → Bool
  | .notFound _ _ => true
  | _ => false

/-- The shape of the argument passed to the remote `client.task.delete`:
the wire contract distinguishes one object from a list of objects. -/
inductive DeleteCall
  | scalarShape (o : Obj)
  | listShape (os : List Obj)
deriving DecidableEq

/-- `ticktick_delete_tasks`: resolve every id in input order, partition into
valid tasks / missing ids / invalid ids, then either report the failure
envelope (without any remote mutation) or issue one delete call whose
argument shape matches the input shape, and report the aggregated result.
The second component is the delete call issued, if any. -/
def ticktick_delete_tasks (g : GetById) (task_ids : DeleteInput) :
    DeleteResponse × Option DeleteCall :=
  let ids := idsToProcess task_ids
  let r := resolveIds g ids
  match r.1 with
  | [] =>
    if ids.isEmpty then (.errorNoIds, none)
    else (.notFound r.2.1 r.2.2, none)
  | o :: os =>
    let call := match task_ids with
      | .single _ => DeleteCall.scalarShape o
      | .many _ => DeleteCall.listShape (o :: os)
    (.ok ⟨(o :: os).length, (o :: os).map Obj.id, warningsField r.2.1 r.2.2⟩,
     some call)

/-- Whether a single id resolves to a valid task under lookup `g`. -/
def resolvesToTask (g : GetById) (tid : String) : Bool :=
  match g tid with
  | some o => isValidTaskObj o
  | none => false

/-- The valid task objects for a list of ids, in input order with duplicates
kept. -/
def validObjs (g : GetById) (ids : List String) : List Obj :=
  ids.filterMap fun tid =>
    (g tid).bind fun o => if isValidTaskObj o then some o else none

/-- The ids whose lookup returned nothing, in input order. -/
def missingOf (g : GetById) (ids : List String) : List String :=
  ids.filter fun tid => (g tid).isNone

/-- The ids whose lookup returned a non-task object, in input order. -/
def invalidOf (g : GetById) (ids : List String) : List String :=
  ids.filter fun tid => ((g tid).map (fun o => !isValidTaskObj o)).getD false

theorem resolveIds_eq (g : GetById) (ids : List String) :
    resolveIds g ids = (validObjs g ids, missingOf g ids, invalidOf g ids) := by
  induction ids with
  | nil => rfl
  | cons tid rest ih =>
    simp only [resolveIds, ih, validObjs, missingOf, invalidOf,
      List.filterMap_cons, List.filter_cons]
    cases hg : g tid with
    | none => simp [hg]
    | some o =>
      cases ho : isValidTaskObj o <;>
        simp [hg, ho, validObjs, missingOf, invalidOf]

/-- The task-reference check used by `ticktick_make_subtask` (and
`ticktick_complete_task`): the looked-up object must be a dictionary with a
truthy `projectId`. -/
def hasProjectId (o : Obj) : Bool := decide (o.projectId.getD "" ≠ "")

/-- A call issued by a tool to the remote client, in issue order. -/
inductive ClientCall
  | getById (id : String)
  | makeSubtaskCall (childId parentId : String)
deriving DecidableEq

/-- Whether a client call mutates remote state. -/
def ClientCall.isMutating : ClientCall → Bool
  | .makeSubtaskCall _ _ => true
  | _ => false

/-- The response envelopes `ticktick_make_subtask` can produce, carrying the
message strings and extra fields the source puts into the JSON
dictionaries. -/
inductive SubtaskResponse
  /-- `{"error": msg}` -/
  | err (msg : String)
  /-- `{"error": msg, "status": "not_found"}` -/
  | notFound (msg : String)
  /-- `{"error": msg, "child_project": ..., "parent_project": ...}` -/
  | mismatch (msg : String) (child_project parent_project : Option String)
  /-- `{"message": msg, "status": "success", "updated_parent_task": ..., "api_response": ...}` -/
  | ok (msg : String) (updated_parent_task : Option Obj)
deriving DecidableEq

/-- `ticktick_make_subtask`: reject equal ids before any client call, resolve
child then parent, reject non-tasks, reject differing `projectId`s before the
mutating call, otherwise issue the mutating call and refetch the parent. The
second component is the ordered trace of client calls issued. -/
def ticktick_make_subtask (g : GetById) (parent_task_id child_task_id : String) :
    SubtaskResponse × List ClientCall :=
  if child_task_id = parent_task_id then
    (.err "Child and parent task IDs cannot be the same.", [])
  else
    match g child_task_id with
    | none =>
      (.notFound ("Child task with ID " ++ child_task_id ++ " not found or invalid."),
       [.getById child_task_id])
    | some child =>
      if hasProjectId child = false then
        (.notFound ("Child task with ID " ++ child_task_id ++ " not found or invalid."),
         [.getById child_task_id])
      else
        match g parent_task_id with
        | none =>
          (.notFound ("Parent task with ID " ++ parent_task_id ++ " not found or invalid."),
           [.getById child_task_id, .getById parent_task_id])
        | some par =>
          if hasProjectId par = false then
            (.notFound ("Parent task with ID " ++ parent_task_id ++ " not found or invalid."),
             [.getById child_task_id, .getById parent_task_id])
          else if child.projectId ≠ par.projectId then
            (.mismatch "Tasks must be in the same project to create a subtask relationship."
               child.projectId par.projectId,
             [.getById child_task_id, .getById parent_task_id])
          else
            (.ok ("Task " ++ child_task_id ++ " successfully made a subtask of "
                    ++ parent_task_id ++ ".")
               (g parent_task_id),
             [.getById child_task_id, .getById parent_task_id,
              .makeSubtaskCall child_task_id parent_task_id,
              .getById parent_task_id])

/-- Modelled from the spec: the validation performed by the task builder of
the external ticktick-py client library (`client.task.builder`, not part of
this repository and therefore absent from src/). Per the spec invariant,
`priority` must lie in the ordinal set {0, 1, 3, 5} when present. -/
def builderAcceptsPriority (priority : Option Int) : Bool :=
  match priority with
  | none => true
  | some v => v == 0 || v == 1 || v == 3 || v == 5

/-- The response envelopes of `ticktick_create_task`: the error envelope
produced when the builder raises (caught at the operation boundary and
wrapped as `{"error": ...}`), or the created task passthrough. -/
inductive CreateResponse
  | err
  | created
deriving DecidableEq

/-- The priority-validation slice of `ticktick_create_task`: the builder is
invoked on the caller arguments; if it rejects the priority the raised error
is caught and returned as an error envelope and `client.task.create` is never
called (second component: whether the create call was issued). Date parsing
and the other pass-through arguments are independent of this slice and are
not modelled. -/
def ticktick_create_task (priority : Option Int) : CreateResponse × Bool :=
  if builderAcceptsPriority priority then (.created, true) else (.err, false)
/-- A concrete remote store used to instantiate theorems on concrete inputs:
two valid tasks A and C in project P1, a non-task object N (no `projectId`),
and two valid tasks X1 (project P1) and X2 (project P2). -/
def gStore : GetById := fun tid =>
  if tid = "A" then some { id := "A", projectId := some "P1", title := some "Task A" }
  else if tid = "C" then some { id := "C", projectId := some "P1", title := some "Task C" }
  else if tid = "N" then some { id := "N", title := some "not a task" }
  else if tid = "X1" then some { id := "X1", projectId := some "P1", title := some "Child" }
  else if tid = "X2" then some { id := "X2", projectId := some "P2", title := some "Parent" }
  else none

/-- The empty remote store. -/
def gEmpty : GetById := fun _ => none

/-- A concrete fetched base record used to instantiate the merge theorems. -/
def baseSample : TaskObject :=
  { title := some "Old title", priority := some 5, id := some "t1",
    projectId := some "p1", content := some "old content" }

/-- A concrete partial update record: the caller supplied `id`, `projectId`
and `content` only, so `title` is null and `priority` silently carries the
model default `0`. -/
def patchSample : TaskObject :=
  { content := some "new content", id := some "t1", projectId := some "p1" }

theorem data_append (s t : String) : (s ++ t).data = s.data ++ t.data := rfl

theorem beginsWith_append_self (p t : List Char) :
    beginsWith p (p ++ t) = true := by
  induction p with
  | nil => rfl
  | cons a p ih => simp [beginsWith, ih]

theorem occursIn_of_beginsWith {p l : List Char} (h : beginsWith p l = true) :
    occursIn p l = true := by
  cases l with
  | nil => cases p with
    | nil => rfl
    | cons a p => simp [beginsWith] at h
  | cons b l => simp [occursIn, h]

theorem occursIn_append_left {p l : List Char} (x : List Char)
    (h : occursIn p l = true) : occursIn p (x ++ l) = true := by
  induction x with
  | nil => simpa using h
  | cons c x ih => simp [occursIn, ih]

theorem occursIn_split (p x y : List Char) :
    occursIn p (x ++ (p ++ y)) = true :=
  occursIn_append_left x (occursIn_of_beginsWith (beginsWith_append_self p y))

theorem dropWhile_ws_of_all {tail : List Char}
    (ht : ∀ c ∈ tail, c.isWhitespace = true) (rest : List Char) :
    List.dropWhile Char.isWhitespace (tail ++ rest) =
      List.dropWhile Char.isWhitespace rest := by
  induction tail with
  | nil => rfl
  | cons c tail ih =>
    have hc := ht c (by simp)
    simp only [List.cons_append, List.dropWhile_cons, hc, if_true]
    exact ih fun d hd => ht d (by simp [hd])

theorem pyStripL_shape (a : Char) (mid tail : List Char)
    (ha : a.isWhitespace = false)
    (ht : ∀ c ∈ tail, c.isWhitespace = true) :
    pyStripL (a :: (mid ++ '.' :: tail)) = a :: (mid ++ ['.']) := by
  have hdot : ('.' : Char).isWhitespace = false := by decide
  unfold pyStripL
  rw [List.dropWhile_cons]
  simp only [ha, Bool.false_eq_true, if_false]
  have h1 : (a :: (mid ++ '.' :: tail)).reverse
      = tail.reverse ++ ('.' :: (mid.reverse ++ [a])) := by
    simp
  rw [h1, dropWhile_ws_of_all (by simpa using ht), List.dropWhile_cons]
  simp [hdot]

theorem mentions_of_pyStripL_shape (a : Char) (mid tail : List Char)
    (sub : String) (ha : a.isWhitespace = false)
    (ht : ∀ c ∈ tail, c.isWhitespace = true)
    (hsub : ∃ x y, a :: (mid ++ ['.']) = x ++ (sub.data ++ y)) :
    occursIn sub.data (pyStripL (a :: (mid ++ '.' :: tail))) = true := by
  rw [pyStripL_shape a mid tail ha ht]
  obtain ⟨x, y, hxy⟩ := hsub
  rw [hxy]
  exact occursIn_split sub.data x y

theorem mem_joinSep_data {x : String} {l : List String} (h : x ∈ l) :
    ∃ a b, (joinSep (l.map pyQuote)).data = a ++ (x.data ++ b) := by
  induction l with
  | nil => cases h
  | cons y ys ih =>
    rcases List.mem_cons.mp h with rfl | hmem
    · cases ys with
      | nil =>
        exact ⟨[quoteChar], [quoteChar], rfl⟩
      | cons z zs =>
        refine ⟨[quoteChar],
          [quoteChar] ++ (", ").data
            ++ (joinSep ((z :: zs).map pyQuote)).data, ?_⟩
        simp [joinSep, pyQuote, data_append, String.singleton]
    · cases ys with
      | nil => cases hmem
      | cons z zs =>
        obtain ⟨a, b, hab⟩ := ih hmem
        refine ⟨(pyQuote y).data ++ (", ").data ++ a, b, ?_⟩
        simp only [List.map_cons] at hab
        simp [joinSep, data_append, hab]

theorem mem_pyStrList_data {x : String} {l : List String} (h : x ∈ l) :
    ∃ a b, (pyStrList l).data = a ++ (x.data ++ b) := by
  obtain ⟨a, b, hab⟩ := mem_joinSep_data h
  refine ⟨("[").data ++ a, b ++ ("]").data, ?_⟩
  simp [pyStrList, data_append, hab]

theorem missing_sentence_data :
    ("Could not find objects for IDs: ").data
      = 'C' :: ("ould not find objects for IDs: ").data := rfl

theorem invalid_sentence_data :
    ("Found objects for IDs but they were not valid tasks: ").data
      = 'F' :: ("ound objects for IDs but they were not valid tasks: ").data := rfl

theorem dot_space_data : (". ").data = ['.', spaceChar] := rfl

theorem warnMention_missing {m i : List String} {tid : String} (h : tid ∈ m) :
    mentions (pyStrip (warningMessage m i)) tid := by
  have hm : m.isEmpty = false := by cases m with
    | nil => cases h
    | cons y ys => rfl
  obtain ⟨a, b, hab⟩ := mem_pyStrList_data h
  unfold mentions pyStrip
  cases hi : i.isEmpty with
  | true =>
    have h1 : warningMessage m i
        = "Could not find objects for IDs: " ++ pyStrList m ++ ". " := by
      simp [warningMessage, hm, hi]
    have hdata : (warningMessage m i).data
        = 'C' :: ((("ould not find objects for IDs: ").data
            ++ (pyStrList m).data) ++ '.' :: [spaceChar]) := by
      rw [h1]
      simp [data_append, missing_sentence_data, dot_space_data]
      rfl
    rw [hdata]
    refine mentions_of_pyStripL_shape 'C' _ [spaceChar] tid (by decide)
      (by decide) ?_
    refine ⟨'C' :: (("ould not find objects for IDs: ").data ++ a),
      b ++ ['.'], ?_⟩
    simp [hab]
  | false =>
    have h1 : warningMessage m i
        = "Could not find objects for IDs: " ++ pyStrList m ++ ". "
          ++ ("Found objects for IDs but they were not valid tasks: "
              ++ pyStrList i ++ ".") := by
      simp [warningMessage, hm, hi]
    have hdata : (warningMessage m i).data
        = 'C' :: ((("ould not find objects for IDs: ").data
            ++ (pyStrList m).data ++ '.' :: spaceChar
            :: ("Found objects for IDs but they were not valid tasks: ").data
            ++ (pyStrList i).data) ++ '.' :: ([] : List Char)) := by
      rw [h1]
      simp [data_append, missing_sentence_data, dot_space_data]
      rfl
    rw [hdata]
    refine mentions_of_pyStripL_shape 'C' _ [] tid (by decide) (by decide) ?_
    refine ⟨'C' :: (("ould not find objects for IDs: ").data ++ a),
      b ++ '.' :: spaceChar
        :: ("Found objects for IDs but they were not valid tasks: ").data
        ++ (pyStrList i).data ++ ['.'], ?_⟩
    simp [hab]

theorem warnMention_invalid {m i : List String} {tid : String} (h : tid ∈ i) :
    mentions (pyStrip (warningMessage m i)) tid := by
  have hi : i.isEmpty = false := by cases i with
    | nil => cases h
    | cons y ys => rfl
  obtain ⟨a, b, hab⟩ := mem_pyStrList_data h
  unfold mentions pyStrip
  cases hm : m.isEmpty with
  | true =>
    have h1 : warningMessage m i
        = "Found objects for IDs but they were not valid tasks: "
          ++ pyStrList i ++ "." := by
      simp [warningMessage, hm, hi]
    have hdata : (warningMessage m i).data
        = 'F' :: ((("ound objects for IDs but they were not valid tasks: ").data
            ++ (pyStrList i).data) ++ '.' :: ([] : List Char)) := by
      rw [h1]
      simp [data_append, invalid_sentence_data]
    rw [hdata]
    refine mentions_of_pyStripL_shape 'F' _ [] tid (by decide) (by decide) ?_
    refine ⟨'F' :: (("ound objects for IDs but they were not valid tasks: ").data
      ++ a), b ++ ['.'], ?_⟩
    simp [hab]
  | false =>
    have h1 : warningMessage m i
        = "Could not find objects for IDs: " ++ pyStrList m ++ ". "
          ++ ("Found objects for IDs but they were not valid tasks: "
              ++ pyStrList i ++ ".") := by
      simp [warningMessage, hm, hi]
    have hdata : (warningMessage m i).data
        = 'C' :: ((("ould not find objects for IDs: ").data
            ++ (pyStrList m).data ++ '.' :: spaceChar
            :: ("Found objects for IDs but they were not valid tasks: ").data
            ++ (pyStrList i).data) ++ '.' :: ([] : List Char)) := by
      rw [h1]
      simp [data_append, missing_sentence_data, dot_space_data]
      rfl
    rw [hdata]
    refine mentions_of_pyStripL_shape 'C' _ [] tid (by decide) (by decide) ?_
    refine ⟨'C' :: (("ould not find objects for IDs: ").data
      ++ (pyStrList m).data ++ '.' :: spaceChar
      :: ("Found objects for IDs but they were not valid tasks: ").data ++ a),
      b ++ ['.'], ?_⟩
    simp [hab]

theorem warningMessage_ne_empty {m i : List String} (h : m ≠ [] ∨ i ≠ []) :
    warningMessage m i ≠ "" := by
  intro hcon
  have hdata : (warningMessage m i).data = [] := by rw [hcon]
  cases m with
  | nil =>
    cases i with
    | nil => rcases h with h | h <;> exact h rfl
    | cons z zs =>
      simp [warningMessage, data_append, invalid_sentence_data] at hdata
  | cons y ys =>
    simp [warningMessage, data_append, missing_sentence_data] at hdata


theorem option_or_self_or {α : Type} (p b : Option α) :
    p.or (p.or b) = p.or b := by
  cases p <;> rfl

/-- C2: for every base record, every partial update record and every field
`f`, if the partial record's field `f` is null then the merged record
produced by the update operation retains the base record's value of `f`
unchanged — null in a partial update never clears a field. -/
theorem merge_preserves_null_fields (base patch : TaskObject) (f : TField)
    (h : patch.getField f = none) :
    (base.update patch).getField f = base.getField f
    ∧ (update_task_merge base patch).getField f = base.getField f := by
  constructor <;>
    (cases f <;>
      simp only [TaskObject.getField, TaskObject.update,
        update_task_merge] at h ⊢ <;>
      rw [Option.map_eq_none'] at h <;> rw [h] <;> rfl)

/-- Witness for C2 at a concrete input: the partial record leaves `title`
null, and the merge keeps the base record's title. -/
theorem merge_preserves_null_fields_witness :
    patchSample.getField .title = none
    ∧ ((baseSample.update patchSample).getField .title
        = baseSample.getField .title
      ∧ (update_task_merge baseSample patchSample).getField .title
          = baseSample.getField .title) :=
  ⟨by decide,
   merge_preserves_null_fields baseSample patchSample .title (by decide)⟩

/-- C9: the merge of the update operation is idempotent — applying it twice
with the same partial record gives the same result as applying it once, both
for `TaskObject.update` and for the dictionary merge step of
`ticktick_update_task`. -/
theorem merge_idempotent (base patch : TaskObject) :
    ((base.update patch).update patch = base.update patch)
    ∧ (update_task_merge (update_task_merge base patch) patch
        = update_task_merge base patch) := by
  constructor <;>
    simp [TaskObject.update, update_task_merge, option_or_self_or]

/-- C10: a partial update record constructed without mentioning `priority`
carries the model's non-null default `0` rather than null, and the
`exclude_none` merge of `ticktick_update_task` therefore overwrites the base
record's priority with `0`. -/
theorem update_resets_unmentioned_priority (base patch : TaskObject)
    (h : patch.priority = emptyTaskObject.priority) :
    emptyTaskObject.priority = some 0
    ∧ (update_task_merge base patch).priority = some 0 := by
  refine ⟨rfl, ?_⟩
  rw [show emptyTaskObject.priority = some 0 from rfl] at h
  simp [update_task_merge, h]

/-- Witness for C10 at a concrete input: the caller never mentioned
`priority`, yet the merged record's priority drops from `5` to `0`. -/
theorem update_resets_unmentioned_priority_witness :
    patchSample.priority = emptyTaskObject.priority
    ∧ baseSample.priority = some 5
    ∧ (emptyTaskObject.priority = some 0
       ∧ (update_task_merge baseSample patchSample).priority = some 0) :=
  ⟨by decide, by decide,
   update_resets_unmentioned_priority baseSample patchSample (by decide)⟩

/-- C8: serializing a date field of a record that has a value but no
timezone assigns the local process timezone to the record exactly once, and
every subsequent serialization of the resulting record yields the same wire
value and leaves the record unchanged. -/
theorem serialize_datetime_idempotent (conv : Int → String → String)
    (localKey : String) (st : TaskObject) (v : Int)
    (h1 : st.timeZone = none) (h2 : st.startDate = some v) :
    ((serialize_datetime conv localKey st st.startDate).2.timeZone
        = some localKey)
    ∧ ((serialize_datetime conv localKey st st.startDate).1
        = some (conv v localKey))
    ∧ (serialize_datetime conv localKey
         (serialize_datetime conv localKey st st.startDate).2
         (serialize_datetime conv localKey st st.startDate).2.startDate
       = serialize_datetime conv localKey st st.startDate) := by
  rw [h2]
  simp [serialize_datetime, h1, h2]

/-- Witness for C8 at a concrete input: a record with a start date and no
timezone, a concrete conversion function and a concrete local zone. -/
theorem serialize_datetime_idempotent_witness :
    ({ startDate := some 5 } : TaskObject).timeZone = none
    ∧ ({ startDate := some 5 } : TaskObject).startDate = some 5
    ∧ (((serialize_datetime (fun _ tz => tz) "Asia/Seoul"
          { startDate := some 5 }
          ({ startDate := some 5 } : TaskObject).startDate).2.timeZone
        = some "Asia/Seoul")
      ∧ ((serialize_datetime (fun _ tz => tz) "Asia/Seoul"
            { startDate := some 5 }
            ({ startDate := some 5 } : TaskObject).startDate).1
          = some "Asia/Seoul")
      ∧ (serialize_datetime (fun _ tz => tz) "Asia/Seoul"
           (serialize_datetime (fun _ tz => tz) "Asia/Seoul"
             { startDate := some 5 }
             ({ startDate := some 5 } : TaskObject).startDate).2
           (serialize_datetime (fun _ tz => tz) "Asia/Seoul"
             { startDate := some 5 }
             ({ startDate := some 5 } : TaskObject).startDate).2.startDate
         = serialize_datetime (fun _ tz => tz) "Asia/Seoul"
             { startDate := some 5 }
             ({ startDate := some 5 } : TaskObject).startDate)) :=
  ⟨rfl, rfl,
   serialize_datetime_idempotent (fun _ tz => tz) "Asia/Seoul"
     { startDate := some 5 } 5 rfl rfl⟩

/-- C3: a create request whose priority is outside the allowed ordinal set
{0, 1, 3, 5} is rejected with a validation error and the record is never
persisted (the remote create endpoint is not called). -/
theorem create_rejects_bad_priority (v : Int)
    (h0 : v ≠ 0) (h1 : v ≠ 1) (h3 : v ≠ 3) (h5 : v ≠ 5) :
    ticktick_create_task (some v) = (.err, false) := by
  simp [ticktick_create_task, builderAcceptsPriority, h0, h1, h3, h5]

/-- Witness for C3 at the concrete input `priority = 2`. -/
theorem create_rejects_bad_priority_witness :
    (2 : Int) ≠ 0 ∧ (2 : Int) ≠ 1 ∧ (2 : Int) ≠ 3 ∧ (2 : Int) ≠ 5
    ∧ ticktick_create_task (some 2) = (.err, false) :=
  ⟨by decide, by decide, by decide, by decide,
   create_rejects_bad_priority 2 (by decide) (by decide) (by decide) (by decide)⟩

/-- C4 (amended): for every pair of textually equal task ids, the
hierarchy-link operation fails with an invalid-argument error before any
lookup or mutating call to the remote service is issued; the structured
error is the fixed message `Child and parent task IDs cannot be the same.`
and does not name the offending identities. -/
theorem make_subtask_rejects_self (g : GetById) (x : String) :
    ticktick_make_subtask g x x
      = (.err "Child and parent task IDs cannot be the same.", []) := by
  simp [ticktick_make_subtask]

/-- Counterexample for C4 as stated: for the self-pair with id `zz` the
check does run before any client call, but the structured error does not
mention the offending identity. -/
theorem make_subtask_self_error_names_no_ids :
    (ticktick_make_subtask gEmpty "zz" "zz").1
      = .err "Child and parent task IDs cannot be the same."
    ∧ (ticktick_make_subtask gEmpty "zz" "zz").2 = []
    ∧ ¬ mentions "Child and parent task IDs cannot be the same." "zz" := by
  refine ⟨rfl, rfl, ?_⟩
  decide

/-- C5: when both ids resolve to tasks whose `projectId` values differ, the
hierarchy-link operation fails with a constraint-violation error that names
both containers, and no mutating call to the remote service is issued. -/
theorem make_subtask_rejects_cross_project (g : GetById)
    (parentId childId : String) (child par : Obj)
    (hne : childId ≠ parentId)
    (hc : g childId = some child) (hcp : hasProjectId child = true)
    (hp : g parentId = some par) (hpp : hasProjectId par = true)
    (hproj : child.projectId ≠ par.projectId) :
    ticktick_make_subtask g parentId childId
      = (.mismatch
           "Tasks must be in the same project to create a subtask relationship."
           child.projectId par.projectId,
         [.getById childId, .getById parentId])
    ∧ ∀ c ∈ (ticktick_make_subtask g parentId childId).2,
        c.isMutating = false := by
  have hmain : ticktick_make_subtask g parentId childId
      = (.mismatch
           "Tasks must be in the same project to create a subtask relationship."
           child.projectId par.projectId,
         [.getById childId, .getById parentId]) := by
    simp [ticktick_make_subtask, hne, hc, hcp, hp, hpp, hproj]
  refine ⟨hmain, ?_⟩
  rw [hmain]
  intro c hmem
  cases hmem with
  | head => rfl
  | tail _ h2 =>
    cases h2 with
    | head => rfl
    | tail _ h3 => cases h3

/-- Witness for C5 at a concrete input: task X1 lives in project P1 and task
X2 in project P2; linking them fails naming both containers and issues no
mutating call. -/
theorem make_subtask_rejects_cross_project_witness :
    ("X1" : String) ≠ "X2"
    ∧ gStore "X1" = some { id := "X1", projectId := some "P1", title := some "Child" }
    ∧ hasProjectId { id := "X1", projectId := some "P1", title := some "Child" } = true
    ∧ gStore "X2" = some { id := "X2", projectId := some "P2", title := some "Parent" }
    ∧ hasProjectId { id := "X2", projectId := some "P2", title := some "Parent" } = true
    ∧ (Obj.projectId { id := "X1", projectId := some "P1", title := some "Child" }
        ≠ Obj.projectId { id := "X2", projectId := some "P2", title := some "Parent" })
    ∧ (ticktick_make_subtask gStore "X2" "X1"
        = (.mismatch
             "Tasks must be in the same project to create a subtask relationship."
             (some "P1") (some "P2"),
           [.getById "X1", .getById "X2"])
      ∧ ∀ c ∈ (ticktick_make_subtask gStore "X2" "X1").2,
          c.isMutating = false) :=
  ⟨by decide, by decide, by decide, by decide, by decide, by decide,
   make_subtask_rejects_cross_project gStore "X2" "X1"
     { id := "X1", projectId := some "P1", title := some "Child" }
     { id := "X2", projectId := some "P2", title := some "Parent" }
     (by decide) (by decide) (by decide) (by decide) (by decide) (by decide)⟩

/-- C7: the batch delete preserves the caller's argument shape in the
mutating call: a scalar id that resolves leads to a scalar-shaped remote
delete, and a list of ids (even of length one) with at least one valid task
leads to a list-shaped remote delete of the valid tasks. -/
theorem delete_preserves_input_shape (g : GetById) (tid : String)
    (ids : List String) (o : Obj)
    (hres : g tid = some o) (hval : isValidTaskObj o = true)
    (hlist : validObjs g ids ≠ []) :
    (ticktick_delete_tasks g (.single tid)).2 = some (.scalarShape o)
    ∧ (ticktick_delete_tasks g (.many ids)).2
        = some (.listShape (validObjs g ids)) := by
  constructor
  · simp [ticktick_delete_tasks, resolveIds_eq, idsToProcess, validObjs,
      List.filterMap_cons, List.filterMap_nil, hres, hval]
  · cases hv : validObjs g ids with
    | nil => exact absurd hv hlist
    | cons x xs =>
      simp [ticktick_delete_tasks, idsToProcess, resolveIds_eq, hv]

/-- Witness for C7 at concrete inputs: the scalar id `A` and the one-element
list `[C]` both affect one record, with scalar and list call shapes
respectively. -/
theorem delete_preserves_input_shape_witness :
    gStore "A" = some { id := "A", projectId := some "P1", title := some "Task A" }
    ∧ isValidTaskObj { id := "A", projectId := some "P1", title := some "Task A" } = true
    ∧ validObjs gStore ["C"] ≠ []
    ∧ ((ticktick_delete_tasks gStore (.single "A")).2
        = some (.scalarShape { id := "A", projectId := some "P1", title := some "Task A" })
      ∧ (ticktick_delete_tasks gStore (.many ["C"])).2
          = some (.listShape (validObjs gStore ["C"]))) :=
  ⟨by decide, by decide, by decide,
   delete_preserves_input_shape gStore "A" ["C"]
     { id := "A", projectId := some "P1", title := some "Task A" }
     (by decide) (by decide) (by decide)⟩

theorem validObjs_length (g : GetById) (ids : List String) :
    (validObjs g ids).length
      = (ids.filter fun t => resolvesToTask g t).length := by
  induction ids with
  | nil => rfl
  | cons tid rest ih =>
    simp only [validObjs, List.filterMap_cons, List.filter_cons,
      resolvesToTask] at ih ⊢
    cases hg : g tid with
    | none => simpa using ih
    | some o =>
      cases ho : isValidTaskObj o <;> simp [ho] <;> simpa using ih

theorem validObjs_eq_nil {g : GetById} {ids : List String}
    (hbad : ∀ tid ∈ ids, resolvesToTask g tid = false) :
    validObjs g ids = [] := by
  rw [validObjs, List.filterMap_eq_nil_iff]
  intro tid hmem
  have := hbad tid hmem
  unfold resolvesToTask at this
  cases hg : g tid with
  | none => rfl
  | some o => simp [hg] at this; simp [this]

/-- C6 (amended): for every nonempty input to the batch delete in which no
id resolves to a valid task, the operation returns the `not_found` envelope
carrying the missing and invalid id lists (and every input id appears in one
of them), and the remote delete endpoint is never contacted. For the empty
input the operation returns the plain error envelope, which carries no id
lists. -/
theorem delete_all_unresolved_reports_not_found (g : GetById)
    (input : DeleteInput)
    (hne : idsToProcess input ≠ [])
    (hbad : ∀ tid ∈ idsToProcess input, resolvesToTask g tid = false) :
    ((ticktick_delete_tasks g input).1
      = .notFound (missingOf g (idsToProcess input))
          (invalidOf g (idsToProcess input)))
    ∧ (ticktick_delete_tasks g input).2 = none
    ∧ ∀ tid ∈ idsToProcess input,
        tid ∈ missingOf g (idsToProcess input)
        ∨ tid ∈ invalidOf g (idsToProcess input) := by
  have hnil : validObjs g (idsToProcess input) = [] := validObjs_eq_nil hbad
  have hne2 : (idsToProcess input).isEmpty = false := by
    cases h : idsToProcess input with
    | nil => exact absurd h hne
    | cons x xs => rfl
  refine ⟨?_, ?_, ?_⟩
  · simp [ticktick_delete_tasks, resolveIds_eq, hnil, hne2]
  · simp [ticktick_delete_tasks, resolveIds_eq, hnil, hne2]
  · intro tid hmem
    have hb := hbad tid hmem
    unfold resolvesToTask at hb
    cases hg : g tid with
    | none =>
      exact Or.inl (List.mem_filter.mpr ⟨hmem, by simp [hg]⟩)
    | some o =>
      rw [hg] at hb
      have hb2 : isValidTaskObj o = false := hb
      exact Or.inr (List.mem_filter.mpr ⟨hmem, by simp [hg, hb2]⟩)

/-- Witness for the amended C6 at a concrete input: id `B` is absent from
the store and id `N` resolves to a non-task. -/
theorem delete_all_unresolved_reports_not_found_witness :
    idsToProcess (.many ["B", "N"]) ≠ []
    ∧ (∀ tid ∈ idsToProcess (.many ["B", "N"]),
        resolvesToTask gStore tid = false)
    ∧ (((ticktick_delete_tasks gStore (.many ["B", "N"])).1
        = .notFound (missingOf gStore (idsToProcess (.many ["B", "N"])))
            (invalidOf gStore (idsToProcess (.many ["B", "N"]))))
      ∧ (ticktick_delete_tasks gStore (.many ["B", "N"])).2 = none
      ∧ ∀ tid ∈ idsToProcess (.many ["B", "N"]),
          tid ∈ missingOf gStore (idsToProcess (.many ["B", "N"]))
          ∨ tid ∈ invalidOf gStore (idsToProcess (.many ["B", "N"]))) :=
  ⟨by decide, by decide,
   delete_all_unresolved_reports_not_found gStore (.many ["B", "N"])
     (by decide) (by decide)⟩

/-- Counterexample for C6 as stated: the empty id list is an input in which
no id resolves to a valid task, yet the returned error envelope is the plain
`No task IDs provided.` one, which carries no missing or invalid id lists
(the remote delete endpoint is still never contacted). -/
theorem delete_empty_input_lacks_id_lists :
    (ticktick_delete_tasks gEmpty (.many [])).1 = .errorNoIds
    ∧ (ticktick_delete_tasks gEmpty (.many [])).1.carriesIdLists = false
    ∧ (ticktick_delete_tasks gEmpty (.many [])).2 = none :=
  ⟨rfl, rfl, rfl⟩

/-- C1: whenever at least one id of the batch delete input resolves to a
valid task, the result is the success envelope whose `deleted_count` is the
number of input ids (in input order, duplicates counted separately) that
resolved to valid tasks, whose `tasks_deleted_ids` lists the ids of those
tasks in input order, and whose `warnings` field mentions every input id
that did not resolve and every input id that resolved to a non-task. -/
theorem delete_batch_aggregation (g : GetById) (input : DeleteInput)
    (hvalid : validObjs g (idsToProcess input) ≠ []) :
    ((ticktick_delete_tasks g input).1
      = .ok ⟨((idsToProcess input).filter fun t => resolvesToTask g t).length,
             (validObjs g (idsToProcess input)).map Obj.id,
             warningsField (missingOf g (idsToProcess input))
               (invalidOf g (idsToProcess input))⟩)
    ∧ (∀ tid ∈ idsToProcess input, g tid = none →
        ∃ w, warningsField (missingOf g (idsToProcess input))
               (invalidOf g (idsToProcess input)) = some w
          ∧ mentions w tid)
    ∧ (∀ tid ∈ idsToProcess input, ∀ o, g tid = some o →
        isValidTaskObj o = false →
        ∃ w, warningsField (missingOf g (idsToProcess input))
               (invalidOf g (idsToProcess input)) = some w
          ∧ mentions w tid) := by
  refine ⟨?_, ?_, ?_⟩
  · have hlen := validObjs_length g (idsToProcess input)
    cases hv : validObjs g (idsToProcess input) with
    | nil => exact absurd hv hvalid
    | cons x xs =>
      rw [hv] at hlen
      simp [ticktick_delete_tasks, resolveIds_eq, hv, ← hlen]
  · intro tid hmem hnone
    have hmm : tid ∈ missingOf g (idsToProcess input) :=
      List.mem_filter.mpr ⟨hmem, by simp [hnone]⟩
    have hA : missingOf g (idsToProcess input) ≠ [] := by
      intro h0
      rw [h0] at hmm
      cases hmm
    refine ⟨pyStrip (warningMessage (missingOf g (idsToProcess input))
      (invalidOf g (idsToProcess input))), ?_, warnMention_missing hmm⟩
    unfold warningsField
    rw [if_neg (warningMessage_ne_empty (Or.inl hA))]
  · intro tid hmem o hsome hbadobj
    have hmm : tid ∈ invalidOf g (idsToProcess input) :=
      List.mem_filter.mpr ⟨hmem, by simp [hsome, hbadobj]⟩
    have hA : invalidOf g (idsToProcess input) ≠ [] := by
      intro h0
      rw [h0] at hmm
      cases hmm
    refine ⟨pyStrip (warningMessage (missingOf g (idsToProcess input))
      (invalidOf g (idsToProcess input))), ?_, warnMention_invalid hmm⟩
    unfold warningsField
    rw [if_neg (warningMessage_ne_empty (Or.inr hA))]

/-- Witness for C1 at the concrete input `[A, B, C]` where `B` is absent
from the store: two tasks deleted, ids `[A, C]` in input order, and the
warnings mention `B`. -/
theorem delete_batch_aggregation_witness :
    validObjs gStore (idsToProcess (.many ["A", "B", "C"])) ≠ []
    ∧ ((idsToProcess (.many ["A", "B", "C"])).filter
        fun t => resolvesToTask gStore t).length = 2
    ∧ (validObjs gStore (idsToProcess (.many ["A", "B", "C"]))).map Obj.id
        = ["A", "C"]
    ∧ (((ticktick_delete_tasks gStore (.many ["A", "B", "C"])).1
        = .ok ⟨((idsToProcess (.many ["A", "B", "C"])).filter
                  fun t => resolvesToTask gStore t).length,
               (validObjs gStore (idsToProcess (.many ["A", "B", "C"]))).map
                 Obj.id,
               warningsField
                 (missingOf gStore (idsToProcess (.many ["A", "B", "C"])))
                 (invalidOf gStore (idsToProcess (.many ["A", "B", "C"])))⟩)
      ∧ (∀ tid ∈ idsToProcess (.many ["A", "B", "C"]), gStore tid = none →
          ∃ w, warningsField
                 (missingOf gStore (idsToProcess (.many ["A", "B", "C"])))
                 (invalidOf gStore (idsToProcess (.many ["A", "B", "C"])))
               = some w ∧ mentions w tid)
      ∧ (∀ tid ∈ idsToProcess (.many ["A", "B", "C"]), ∀ o,
          gStore tid = some o → isValidTaskObj o = false →
          ∃ w, warningsField
                 (missingOf gStore (idsToProcess (.many ["A", "B", "C"])))
                 (invalidOf gStore (idsToProcess (.many ["A", "B", "C"])))
               = some w ∧ mentions w tid)) :=
  ⟨by decide, by decide, by decide,
   delete_batch_aggregation gStore (.many ["A", "B", "C"]) (by decide)⟩

end TickTickMCP
